import Mathlib

/-!
Verification of the live-preview server in `src/cmd/serve.rs` of
dioxus-mdBook. The definitions below are a shallow embedding of the serving
core: the broadcast reload bus, the websocket one-shot handler, the rebuild
trigger callback, the warp route chain, address resolution and the panic
hook. Each definition is translated from the corresponding place in the
source file.
-/

namespace DioxusMdBookServe

/-- The HTTP endpoint for the websocket used to trigger reloads when a file
changes (`const LIVE_RELOAD_ENDPOINT` in `serve.rs`). -/
def LIVE_RELOAD_ENDPOINT : String := "__livereload"

/-- A websocket message, as built by `warp::ws::Message::text`. -/
inductive Message where
  | text : String → Message
deriving DecidableEq, Repr

/-- Result of `broadcast::Receiver::recv().await` of `tokio::sync::broadcast`:
either a message, or a lag indicator because the receiver fell behind the
bounded buffer (overrun), or a closed-channel indicator. -/
inductive RecvResult where
  | ok : Message → RecvResult
  | lagged : Nat → RecvResult
  | closed : RecvResult
deriving DecidableEq, Repr

/-- Observable behaviour of one run of the websocket connection handler:
the messages it sent to the client, how many times it awaited `recv`, and
whether the connection ended (was dropped / closed) afterwards. -/
structure HandlerTrace where
  sent : List Message
  recvCalls : Nat
  connClosed : Bool
deriving DecidableEq, Repr

/-- Embedding of the `ws.on_upgrade` closure in `serve`:
`if let Ok(m) = rx.recv().await { let _ = user_ws_tx.send(m).await; }`.
The handler awaits exactly one `recv`; only on `Ok(m)` does it send `m`
(once); in every case the async block then ends, dropping and thereby
closing the connection, and never awaits another message. -/
def wsHandler (r : RecvResult) : HandlerTrace :=
  match r with
  | .ok m => { sent := [m], recvCalls := 1, connClosed := true }
  | .lagged _ => { sent := [], recvCalls := 1, connClosed := true }
  | .closed => { sent := [], recvCalls := 1, connClosed := true }

/-- Broadcast delivery of one published message to the `n` receivers
subscribed (and within the buffer bound) at publish time: each of them
observes `Ok` of that message on its own handle. -/
def broadcastDeliver (m : Message) (n : Nat) : List RecvResult :=
  List.replicate n (RecvResult.ok m)

/-- Error of `broadcast::Sender::send`: every receiver handle was dropped. -/
inductive SendError where
  | noReceivers
deriving DecidableEq, Repr

/-- `tx.send(msg)` of `tokio::sync::broadcast`: returns the number of
receivers the message was queued for, or an error value when there are
none. It never blocks. -/
def broadcastSend (receivers : Nat) : Except SendError Nat :=
  if receivers = 0 then .error .noReceivers else .ok receivers

/-- Observable behaviour of one invocation of the rebuild-trigger callback:
which messages it published on the bus, and whether it returned normally. -/
structure CallbackRun where
  published : List Message
  completed : Bool
deriving DecidableEq, Repr

/-- Embedding of the closure passed to `watch::trigger_on_change` in
`execute`: reload and rebuild the book; `if let Err(e) = result` only log
the error; otherwise publish one `Message::text("reload")` with the send
result discarded (`let _ = tx.send(..)`). The closure returns normally in
both cases. `buildResult` is the outcome of the external build collaborator,
`receivers` the number of live subscribers at publish time. -/
def triggerCallback (buildResult : Except String Unit) (receivers : Nat) :
    CallbackRun :=
  match buildResult with
  | .error _ => { published := [], completed := true }
  | .ok _ =>
    let _ := broadcastSend receivers
    { published := [Message.text "reload"], completed := true }

/-- An incoming HTTP request, reduced to what the route chain inspects: the
path segments (empty for the site root `/`) and whether the request carries
a websocket upgrade handshake. -/
structure Request where
  segments : List String
  isWsUpgrade : Bool
deriving DecidableEq, Repr

/-- Which of the four behaviours the route chain selects for a request. -/
inductive RouteResult where
  | liveReloadUpgrade
  | localeRedirect (target : String)
  | staticAsset (path : List String)
  | notFoundFallback
deriving DecidableEq, Repr

/-- The filter `warp::path(LIVE_RELOAD_ENDPOINT).and(warp::ws())`: it
matches when the first path segment equals the reserved endpoint and the
request asks for a websocket upgrade. -/
def isLiveReloadMatch (req : Request) : Bool :=
  (req.segments.head? == some LIVE_RELOAD_ENDPOINT) && req.isWsUpgrade

/-- File resolution of `warp::fs::dir(build_dir)`: the directory root serves
`index.html`, any other path serves the file at that relative path. -/
def staticResolve (segments : List String) : List String :=
  match segments with
  | [] => ["index.html"]
  | _ => segments

/-- `format!("/{}/index.html", lang_ident)` parsed as a `Uri`: the absolute
redirect target of the locale root redirect. -/
def index_for_language (lang : String) : String :=
  "/" ++ lang ++ "/index.html"

/-- The file served by the 404 fallback route:
`build_dir.join(lang_ident).join(file_404)` in the locale branch of `serve`,
`build_dir.join(file_404)` in the branch without a locale. -/
def fallbackFilePath (buildDir : List String) (language : Option String)
    (file404 : String) : List String :=
  match language with
  | some lang => buildDir ++ [lang, file404]
  | none => buildDir ++ [file404]

/-- The route chain built in `serve`:
`livereload.or(redirect_to_index).or(book_route).or(fallback_route)` when a
locale is configured and `livereload.or(book_route).or(fallback_route)`
when not; `or` tries its filters left to right and the first match wins.
`redirect_to_index` is `warp::path::end()`, matching exactly the site root.
`fileExists p` says whether the output directory holds a file at relative
path `p`. -/
def route (language : Option String) (fileExists : List String → Bool)
    (req : Request) : RouteResult :=
  if isLiveReloadMatch req then .liveReloadUpgrade
  else
    match language with
    | some lang =>
      if req.segments.isEmpty then .localeRedirect (index_for_language lang)
      else if fileExists (staticResolve req.segments) then
        .staticAsset (staticResolve req.segments)
      else .notFoundFallback
    | none =>
      if fileExists (staticResolve req.segments) then
        .staticAsset (staticResolve req.segments)
      else .notFoundFallback

/-- An HTTP response, reduced to what the claims inspect: the status code,
the file whose content forms the body (as an absolute path under the build
directory), and the redirect target of a `Location` header. -/
structure HttpResponse where
  status : Nat
  bodyFile : Option (List String)
  location : Option String
deriving DecidableEq, Repr

/-- The response for a request under the chain of `serve`: a websocket
accept (101) on the live-reload route, `warp::redirect` (301 with a
`Location` header) on the locale root route, the resolved file with status
200 on a static hit, and the fallback 404 document wrapped by
`with_status(.., StatusCode::NOT_FOUND)` otherwise. -/
def respond (buildDir : List String) (language : Option String)
    (file404 : String) (fileExists : List String → Bool) (req : Request) :
    HttpResponse :=
  match route language fileExists req with
  | .liveReloadUpgrade => { status := 101, bodyFile := none, location := none }
  | .localeRedirect target =>
    { status := 301, bodyFile := none, location := some target }
  | .staticAsset p =>
    { status := 200, bodyFile := some (buildDir ++ p), location := none }
  | .notFoundFallback =>
    { status := 404,
      bodyFile := some (fallbackFilePath buildDir language file404),
      location := none }

/-- A resolved socket address (the payload is irrelevant to the claims). -/
structure SockAddr where
  addr : String
deriving DecidableEq, Repr

/-- Embedding of
`address.to_socket_addrs()?.next().ok_or_else(|| anyhow!("no address found for {}", address))?`
in `execute`: resolution itself may fail (the first `?`), otherwise the
first resolved address is taken, and an empty resolution becomes a
descriptive error naming the address. -/
def sockaddrOf (resolved : Except String (List SockAddr)) (address : String) :
    Except String SockAddr :=
  match resolved with
  | .error e => .error e
  | .ok addrs =>
    match addrs with
    | [] => .error ("no address found for " ++ address)
    | a :: _ => .ok a

/-- Outcome of `execute` at the address-resolution step: either it returns
the error (via `?`) before the serve thread is spawned, or the server is
started on the resolved address. -/
inductive ExecOutcome where
  | failed (msg : String)
  | serving (bound : SockAddr)
deriving DecidableEq, Repr

/-- What `execute` does with the resolved addresses: on failure the error
propagates out of `execute` before `std::thread::spawn(.. serve ..)` runs;
on success the serve thread is started on the first address. -/
def executeOutcome (resolved : Except String (List SockAddr))
    (address : String) : ExecOutcome :=
  match sockaddrOf resolved address with
  | .error e => .failed e
  | .ok a => .serving a

/-- Action a panic hook takes on the process. -/
inductive ProcessAction where
  | exitWithCode : Nat → ProcessAction
deriving DecidableEq, Repr

/-- The closure installed by `std::panic::set_hook` in `serve`: log the
panic info and call `std::process::exit(1)`. -/
def panicHook (_panicInfo : String) : ProcessAction :=
  ProcessAction.exitWithCode 1

/-- `serve` installs `panicHook` process-wide (via `std::panic::set_hook`)
before running the warp server. -/
def installedPanicHook : Option (String → ProcessAction) :=
  some panicHook

/-- Embedding of the `language` derivation in `execute`: when
`build_opts.language_ident` is `Some(_)` the serving locale is `None`
(index.html is at the root directory); otherwise it is the default language
of the book configuration, if any. -/
def deriveLanguage (languageIdent : Option String)
    (defaultLanguage : Option String) : Option String :=
  match languageIdent with
  | some _ => none
  | none => defaultLanguage

/-!
Theorems settling the claims.
-/

/-- Claim C1: after one successful rebuild publishes the `"reload"` message,
each of the `n` connections waiting at that time observes `Ok` of that
message on its own subscriber; its handler sends exactly that one textual
notification, awaits no further message (a single `recv` call) and the
connection is then closed — no connection receives two notifications for
one rebuild. -/
theorem c1_one_shot_notify (n : Nat) (r : RecvResult)
    (hr : r ∈ broadcastDeliver (Message.text "reload") n) :
    (broadcastDeliver (Message.text "reload") n).length = n ∧
    wsHandler r =
      { sent := [Message.text "reload"], recvCalls := 1, connClosed := true } := by
  constructor
  · simp [broadcastDeliver]
  · have h : r = RecvResult.ok (Message.text "reload") :=
      List.eq_of_mem_replicate hr
    subst h
    rfl

/-- Witness for C1 at three simultaneous connections. -/
theorem c1_one_shot_notify_witness :
    RecvResult.ok (Message.text "reload") ∈
      broadcastDeliver (Message.text "reload") 3 ∧
    ((broadcastDeliver (Message.text "reload") 3).length = 3 ∧
      wsHandler (RecvResult.ok (Message.text "reload")) =
        { sent := [Message.text "reload"], recvCalls := 1, connClosed := true }) :=
  ⟨by decide, c1_one_shot_notify 3 (RecvResult.ok (Message.text "reload")) (by decide)⟩

/-- Claim C2 counterexample: a connection whose subscriber is invalidated by
overrun observes `Err(Lagged(1))`; the `if let Ok(m)` pattern of the handler
does not fire, so the handler sends nothing — it does not send the reload
notification, contrary to the claim that the overrun indicator is treated
identically to a normal reload message. -/
theorem c2_overrun_counterexample :
    (wsHandler (RecvResult.lagged 1)).sent = [] ∧
    ¬ (wsHandler (RecvResult.lagged 1)).sent = [Message.text "reload"] :=
  ⟨rfl, by decide⟩

/-- Claim C2 as amended: on any overrun (`Lagged`) indicator the handler
sends no notification at all and closes the connection silently after its
single `recv`, instead of treating the indicator like a reload message. -/
theorem c2_overrun_closes_silently (k : Nat) :
    wsHandler (RecvResult.lagged k) =
      { sent := [], recvCalls := 1, connClosed := true } := rfl

/-- Claim C3: when the external build fails, the trigger callback publishes
no message on the bus (the error is only logged, the callback still
completes), so a subscriber that was waiting gets nothing from this
invocation; when the build succeeds, exactly the single `"reload"` message
is published. -/
theorem c3_rebuild_failure_suppression (e : String) (receivers : Nat) :
    (triggerCallback (Except.error e) receivers).published = [] ∧
    (triggerCallback (Except.error e) receivers).completed = true ∧
    (triggerCallback (Except.ok ()) receivers).published =
      [Message.text "reload"] ∧
    (triggerCallback (Except.ok ()) receivers).published.length = 1 :=
  ⟨rfl, rfl, rfl, rfl⟩

/-- Claim C4: the chain evaluates live-reload upgrade, locale redirect
(present only with a locale), static assets, then the 404 fallback, first
match winning. In particular a websocket-upgrade request to the reserved
path is routed to the upgrade — never to a static file — even when a file
of that name exists in the output directory; the root redirect shadows a
root static hit; a static hit shadows the fallback; and without a locale no
request is ever redirected. -/
theorem c4_route_precedence (language : Option String)
    (fileExists : List String → Bool) (req : Request) :
    (req.segments = [LIVE_RELOAD_ENDPOINT] → req.isWsUpgrade = true →
      route language fileExists req = RouteResult.liveReloadUpgrade) ∧
    (∀ lang, req.isWsUpgrade = false → req.segments = [] →
      route (some lang) fileExists req =
        RouteResult.localeRedirect (index_for_language lang)) ∧
    (∀ t, route none fileExists req ≠ RouteResult.localeRedirect t) ∧
    (req.isWsUpgrade = false → req.segments ≠ [] →
      fileExists (staticResolve req.segments) = true →
      route language fileExists req =
        RouteResult.staticAsset (staticResolve req.segments)) ∧
    (req.isWsUpgrade = false → (language = none ∨ req.segments ≠ []) →
      fileExists (staticResolve req.segments) = false →
      route language fileExists req = RouteResult.notFoundFallback) := by
  refine ⟨?_, ?_, ?_, ?_, ?_⟩
  · intro hseg hup
    have hlr : isLiveReloadMatch req = true := by
      simp [isLiveReloadMatch, hseg, hup, LIVE_RELOAD_ENDPOINT]
    simp [route, hlr]
  · intro lang hup hseg
    have hlr : isLiveReloadMatch req = false := by
      simp [isLiveReloadMatch, hup]
    simp [route, hlr, hseg]
  · intro t h
    by_cases hlr : isLiveReloadMatch req = true
    · simp [route, hlr] at h
    · rw [Bool.not_eq_true] at hlr
      by_cases hfe : fileExists (staticResolve req.segments) = true
      · simp [route, hlr, hfe] at h
      · rw [Bool.not_eq_true] at hfe
        simp [route, hlr, hfe] at h
  · intro hup hseg hfe
    have hlr : isLiveReloadMatch req = false := by
      simp [isLiveReloadMatch, hup]
    have hne : req.segments.isEmpty = false := by
      simpa using hseg
    cases language with
    | none => simp [route, hlr, hfe]
    | some lang => simp [route, hlr, hne, hfe]
  · intro hup hroot hfe
    have hlr : isLiveReloadMatch req = false := by
      simp [isLiveReloadMatch, hup]
    cases language with
    | none => simp [route, hlr, hfe]
    | some lang =>
      rcases hroot with h | h
      · exact absurd h (by simp)
      · have hne : req.segments.isEmpty = false := by simpa using h
        simp [route, hlr, hne, hfe]

/-- Witness for C4: an upgrade request to the reserved path is routed to the
live-reload upgrade even though a file named `__livereload` exists. -/
theorem c4_route_precedence_witness :
    route (some "en") (fun p => p == [LIVE_RELOAD_ENDPOINT])
        { segments := [LIVE_RELOAD_ENDPOINT], isWsUpgrade := true } =
      RouteResult.liveReloadUpgrade :=
  (c4_route_precedence (some "en") (fun p => p == [LIVE_RELOAD_ENDPOINT])
    { segments := [LIVE_RELOAD_ENDPOINT], isWsUpgrade := true }).1 rfl rfl

/-- Claim C5: with a locale configured, the root request is answered by
`warp::redirect` (301 with a `Location` header) whose target is the absolute
path `/{locale}/index.html` — it begins with `/`, not a relative target;
with no locale configured no redirect happens and the root serves
`index.html` from the output directory with status 200 when it exists. -/
theorem c5_locale_redirect (buildDir : List String) (lang : String)
    (file404 : String) (fileExists : List String → Bool)
    (hroot : fileExists ["index.html"] = true) :
    respond buildDir (some lang) file404 fileExists
        { segments := [], isWsUpgrade := false } =
      { status := 301, bodyFile := none,
        location := some (index_for_language lang) } ∧
    (∃ rest, index_for_language lang = "/" ++ rest) ∧
    respond buildDir none file404 fileExists
        { segments := [], isWsUpgrade := false } =
      { status := 200, bodyFile := some (buildDir ++ ["index.html"]),
        location := none } := by
  refine ⟨rfl, ⟨lang ++ "/index.html", ?_⟩, ?_⟩
  · simp [index_for_language, String.append_assoc]
  · simp [respond, route, staticResolve, isLiveReloadMatch, hroot]

/-- Witness for C5 with locale `"en"` and an output directory containing
`index.html`. -/
theorem c5_locale_redirect_witness :
    index_for_language "en" = "/en/index.html" ∧
    respond ["book"] (some "en") "404.html" (fun p => p == ["index.html"])
        { segments := [], isWsUpgrade := false } =
      { status := 301, bodyFile := none,
        location := some (index_for_language "en") } :=
  ⟨rfl, (c5_locale_redirect ["book"] "en" "404.html"
    (fun p => p == ["index.html"]) (by decide)).1⟩

/-- Claim C6: a request not captured by an earlier route (not a live-reload
upgrade and, when a locale is configured, not the root) whose path matches
no static file is answered with status 404 and, as body, the configured
fallback document read from `{build_dir}/{locale}/{file_404}` when a locale
is configured and from `{build_dir}/{file_404}` otherwise — never a generic
server default page. -/
theorem c6_fallback_404 (buildDir : List String) (language : Option String)
    (file404 : String) (fileExists : List String → Bool) (req : Request)
    (hlr : isLiveReloadMatch req = false)
    (hroot : language = none ∨ req.segments ≠ [])
    (hmiss : fileExists (staticResolve req.segments) = false) :
    respond buildDir language file404 fileExists req =
      { status := 404,
        bodyFile := some (fallbackFilePath buildDir language file404),
        location := none } := by
  cases language with
  | none => simp [respond, route, hlr, hmiss]
  | some lang =>
    rcases hroot with h | h
    · exact absurd h (by simp)
    · have hne : req.segments.isEmpty = false := by simpa using h
      simp [respond, route, hlr, hne, hmiss]

/-- Witness for C6: `GET /does-not-exist` with locale `"en"` and no matching
static file yields 404 with the fallback document from
`book/en/404.html`. -/
theorem c6_fallback_404_witness :
    respond ["book"] (some "en") "404.html" (fun _ => false)
        { segments := ["does-not-exist"], isWsUpgrade := false } =
      { status := 404, bodyFile := some ["book", "en", "404.html"],
        location := none } :=
  c6_fallback_404 ["book"] (some "en") "404.html" (fun _ => false)
    { segments := ["does-not-exist"], isWsUpgrade := false }
    (by decide) (Or.inr (by decide)) rfl

/-- Claim C7: the bind address is the first resolved socket address; an
empty resolution makes `execute` fail with a descriptive error naming the
unresolvable address before the serve thread is spawned, and a resolver
error propagates the same way — in both failure cases the server is never
started. -/
theorem c7_bind_resolution (address : String) (a : SockAddr)
    (rest : List SockAddr) (e : String) :
    executeOutcome (Except.ok []) address =
      ExecOutcome.failed ("no address found for " ++ address) ∧
    executeOutcome (Except.ok (a :: rest)) address = ExecOutcome.serving a ∧
    executeOutcome (Except.error e) address = ExecOutcome.failed e :=
  ⟨rfl, rfl, rfl⟩

/-- Claim C8: `serve` installs a process-wide panic hook, and for every
panic payload the hook terminates the whole process with exit status 1,
which is non-zero. -/
theorem c8_panic_hook (info : String) :
    installedPanicHook = some panicHook ∧
    panicHook info = ProcessAction.exitWithCode 1 ∧ (1 : Nat) ≠ 0 :=
  ⟨rfl, rfl, by decide⟩

/-- Claim C9: publishing the reload message never fails the trigger
callback and never blocks: for every number of live subscribers, including
zero, the callback completes normally having published the single reload
message — the result of `tx.send` is discarded, so a zero-subscriber
publish is a no-op for the caller, not an error. -/
theorem c9_zero_subscriber_publish (receivers : Nat)
    (buildResult : Except String Unit) :
    (triggerCallback (Except.ok ()) receivers).published =
      [Message.text "reload"] ∧
    (triggerCallback (Except.ok ()) 0).completed = true ∧
    (triggerCallback buildResult receivers).completed = true := by
  refine ⟨rfl, rfl, ?_⟩
  cases buildResult <;> rfl

/-- Claim C10: an explicitly supplied language forces the serving locale to
`none` even when the book configuration has a default language: no request
is then answered with a locale redirect, the root serves `index.html` from
the root output directory when present, and the 404 fallback path has no
locale component; the redirect is active exactly when no explicit language
is supplied and the book has a default language. -/
theorem c10_explicit_language (ident dflt : String) (buildDir : List String)
    (file404 : String) (fileExists : List String → Bool) (req : Request)
    (hroot : fileExists ["index.html"] = true) :
    deriveLanguage (some ident) (some dflt) = none ∧
    (∀ t, route (deriveLanguage (some ident) (some dflt)) fileExists req ≠
      RouteResult.localeRedirect t) ∧
    respond buildDir (deriveLanguage (some ident) (some dflt)) file404
        fileExists { segments := [], isWsUpgrade := false } =
      { status := 200, bodyFile := some (buildDir ++ ["index.html"]),
        location := none } ∧
    fallbackFilePath buildDir (deriveLanguage (some ident) (some dflt))
        file404 = buildDir ++ [file404] ∧
    deriveLanguage none (some dflt) = some dflt ∧
    route (deriveLanguage none (some dflt)) fileExists
        { segments := [], isWsUpgrade := false } =
      RouteResult.localeRedirect (index_for_language dflt) := by
  refine ⟨rfl, ?_, ?_, rfl, rfl, ?_⟩
  · intro t h
    by_cases hlr : isLiveReloadMatch req = true
    · simp [deriveLanguage, route, hlr] at h
    · rw [Bool.not_eq_true] at hlr
      by_cases hfe : fileExists (staticResolve req.segments) = true
      · simp [deriveLanguage, route, hlr, hfe] at h
      · rw [Bool.not_eq_true] at hfe
        simp [deriveLanguage, route, hlr, hfe] at h
  · simp [deriveLanguage, respond, route, staticResolve, isLiveReloadMatch,
      hroot]
  · simp [deriveLanguage, route, isLiveReloadMatch]

/-- Witness for C10: with `--language fr` supplied and default language
`"en"`, the root request serves `book/index.html` with status 200. -/
theorem c10_explicit_language_witness :
    respond ["book"] (deriveLanguage (some "fr") (some "en")) "404.html"
        (fun p => p == ["index.html"])
        { segments := [], isWsUpgrade := false } =
      { status := 200, bodyFile := some ["book", "index.html"],
        location := none } :=
  (c10_explicit_language "fr" "en" ["book"] "404.html"
    (fun p => p == ["index.html"])
    { segments := [], isWsUpgrade := false } (by decide)).2.2.1

end DioxusMdBookServe
